import Mathlib

/-!
Verification of the configuration resolver, the JSON encoder and the reload
endpoint of the Flask application in `src/app.py`.

The Python code is shallowly embedded: environment variables and the INI file
are association lists, fallible Python calls return `Except String`, and the
dynamically-typed values that flow between `os.getenv`, `configparser` and the
pydantic model are a small tagged union `PyVal`.
-/

namespace FlaskApp

instance {ε α : Type} [DecidableEq ε] [DecidableEq α] : DecidableEq (Except ε α) := fun a b =>
  match a, b with
  | .ok x, .ok y =>
    if h : x = y then isTrue (by rw [h]) else isFalse (fun c => h (Except.ok.inj c))
  | .error x, .error y =>
    if h : x = y then isTrue (by rw [h]) else isFalse (fun c => h (Except.error.inj c))
  | .ok _, .error _ => isFalse (fun c => Except.noConfusion c)
  | .error _, .ok _ => isFalse (fun c => Except.noConfusion c)

/-- ASCII lower-casing of one character, as done by Python's `str.lower()` on
the ASCII tokens compared here. -/
def charLower (c : Char) : Char :=
  if 'A' ≤ c ∧ c ≤ 'Z' then Char.ofNat (c.toNat + 32) else c

/-- `str.lower()` (ASCII range, which covers every token the code compares). -/
def strLower (s : String) : String :=
  String.mk (s.toList.map charLower)

/-- Leading-whitespace removal on a character list. -/
def dropWs (cs : List Char) : List Char :=
  match cs with
  | [] => []
  | c :: rest => if c.isWhitespace then dropWs rest else c :: rest

/-- `str.strip()`: surrounding whitespace removed, as performed by Python's
`int(...)` and pydantic's string-to-number coercions. -/
def strStripChars (s : String) : List Char :=
  ((dropWs s.toList.reverse).reverse |> dropWs)

/-- A dynamically typed Python value as it flows into the pydantic model
`AppConfig(...)`: `os.getenv` produces strings, `config.getboolean` produces a
bool (or its string fallback), `config.getint` produces an int. -/
inductive PyVal where
  | str (s : String)
  | bool (b : Bool)
  | int (n : Int)
deriving Repr, DecidableEq

/-- The process environment `os.environ`, as an association list. -/
def EnvVars := List (String × String)

/-- `os.environ.get(name)` / `os.getenv(name)` without a default. -/
def envGet (e : EnvVars) (k : String) : Option String :=
  match e with
  | [] => none
  | (k0, v) :: rest => if k0 = k then some v else envGet rest k

/-- The parsed INI file held by the module-level `configparser.ConfigParser`
object: sections, each a list of (lowercased) keys with raw string values. -/
def IniFile := List (String × List (String × String))

/-- Key lookup inside one section's entry list. -/
def entGet (es : List (String × String)) (k : String) : Option String :=
  match es with
  | [] => none
  | (k0, v) :: rest => if k0 = k then some v else entGet rest k

/-- `config.get(section, key)` as an `Option`: `none` when the section or the
key is missing (configparser would raise `NoSectionError`/`NoOptionError`,
which the `fallback=` argument turns into the fallback value). -/
def iniGet (f : IniFile) (sec key : String) : Option String :=
  match f with
  | [] => none
  | (s0, es) :: rest => if s0 = sec then entGet es key else iniGet rest sec key

/-- `config.get(section, key, fallback=dflt)`. -/
def iniGetD (f : IniFile) (sec key dflt : String) : String :=
  (iniGet f sec key).getD dflt

/-- `configparser`'s `BOOLEAN_STATES` conversion used by `getboolean`:
`_convert_to_boolean` lowercases the value and accepts exactly
1/yes/true/on and 0/no/false/off, raising `ValueError` otherwise. -/
def cpBool (v : String) : Option Bool :=
  let l := strLower v
  if l = "1" ∨ l = "yes" ∨ l = "true" ∨ l = "on" then some true
  else if l = "0" ∨ l = "no" ∨ l = "false" ∨ l = "off" then some false
  else none

/-- `[0-9]*` accumulator for the integer parsers: all characters must be
decimal digits and there must be at least one. -/
def parseDigits : List Char → Option Nat
  | [] => none
  | cs => parseDigitsGo cs 0
where
  parseDigitsGo : List Char → Nat → Option Nat
    | [], acc => some acc
    | c :: rest, acc =>
      if c.isDigit then parseDigitsGo rest (acc * 10 + (c.toNat - '0'.toNat))
      else none

/-- Base-10 integer parsing of a string as done both by Python's `int(...)`
(used by `config.getint`) and by pydantic's lax `str -> int` coercion:
surrounding whitespace is stripped, then an optional sign followed by at
least one decimal digit.  No range restriction of any kind. -/
def pyIntParse (s : String) : Option Int :=
  match strStripChars s with
  | '+' :: rest => (parseDigits rest).map Int.ofNat
  | '-' :: rest => (parseDigits rest).map (fun n => -(n : Int))
  | cs => (parseDigits cs).map Int.ofNat

/-- pydantic-core's lax `str -> bool` coercion (`str_as_bool`): the value is
lowercased and compared against 0/off/f/false/n/no and 1/on/t/true/y/yes.
Note this is a strictly larger set than configparser's `BOOLEAN_STATES`:
it additionally accepts "t", "f", "y" and "n". -/
def pydanticStrAsBool (s : String) : Option Bool :=
  let l := strLower s
  if l = "0" ∨ l = "off" ∨ l = "f" ∨ l = "false" ∨ l = "n" ∨ l = "no" then some false
  else if l = "1" ∨ l = "on" ∨ l = "t" ∨ l = "true" ∨ l = "y" ∨ l = "yes" then some true
  else none

/-- pydantic-core's lax `str -> int` coercion for the `PORT: int` field. -/
def pydanticStrAsInt (s : String) : Option Int :=
  pyIntParse s

/-- pydantic validation of the `DEBUG: bool` field on the dynamically typed
argument: a Python bool passes through, a string goes through `str_as_bool`,
an int passes only as 0/1.  Anything else is a `ValidationError`. -/
def pydanticBool (v : PyVal) : Except String Bool :=
  match v with
  | .bool b => .ok b
  | .str s =>
    match pydanticStrAsBool s with
    | some b => .ok b
    | none => .error ("ValidationError: DEBUG: Input should be a valid boolean, unable to interpret input: " ++ s)
  | .int n => if n = 0 then .ok false else if n = 1 then .ok true else .error "ValidationError: DEBUG"

/-- pydantic validation of the `PORT: int` field: an int passes through, a
string is parsed; there is no range constraint in the model. -/
def pydanticInt (v : PyVal) : Except String Int :=
  match v with
  | .int n => .ok n
  | .bool b => .ok (if b then 1 else 0)
  | .str s =>
    match pydanticStrAsInt s with
    | some n => .ok n
    | none => .error ("ValidationError: PORT: Input should be a valid integer, unable to parse string as an integer: " ++ s)

/-- `config.getboolean(ENV, "debug", fallback="false")`: a missing section or
key yields the fallback (here the *string* `"false"`, passed on unchanged to
pydantic); a present value is converted via `BOOLEAN_STATES`, raising
`ValueError` for anything unrecognized. -/
def debugFileVal (cfg : IniFile) (envName : String) : Except String PyVal :=
  match iniGet cfg envName "debug" with
  | none => .ok (.str "false")
  | some v =>
    match cpBool v with
    | some b => .ok (.bool b)
    | none => .error ("ValueError: Not a boolean: " ++ v)

/-- `config.getint(ENV, "port", fallback=5000)`: a missing section or key
yields the int `5000`; a present value goes through `int(...)`, raising
`ValueError` for a non-numeric string. -/
def portFileVal (cfg : IniFile) (envName : String) : Except String PyVal :=
  match iniGet cfg envName "port" with
  | none => .ok (.int 5000)
  | some v =>
    match pyIntParse v with
    | some n => .ok (.int n)
    | none => .error ("ValueError: invalid literal for int with base 10: " ++ v)

/-- `os.getenv(envKey, config.get(ENV, fileKey, fallback=dflt))` for the three
plain string fields (`ENV`, `HOST`, `LOGGING_LEVEL`): environment variable
first, then file value, then the built-in default. -/
def rawStr (envv : EnvVars) (cfg : IniFile) (envName envKey fileKey dflt : String) : String :=
  match envGet envv envKey with
  | some s => s
  | none => iniGetD cfg envName fileKey dflt

/-- `os.getenv("DEBUG", config.getboolean(ENV, "debug", fallback="false"))`.
Python evaluates the `os.getenv` default argument eagerly, so a malformed
file value raises even when the environment variable is set. -/
def rawDebug (envv : EnvVars) (cfg : IniFile) (envName : String) : Except String PyVal :=
  match debugFileVal cfg envName with
  | .error e => .error e
  | .ok fb =>
    match envGet envv "DEBUG" with
    | some s => .ok (.str s)
    | none => .ok fb

/-- `os.getenv("PORT", config.getint(ENV, "port", fallback=5000))`, with the
same eager evaluation of the file-backed default. -/
def rawPort (envv : EnvVars) (cfg : IniFile) (envName : String) : Except String PyVal :=
  match portFileVal cfg envName with
  | .error e => .error e
  | .ok fb =>
    match envGet envv "PORT" with
    | some s => .ok (.str s)
    | none => .ok fb

/-- The validated configuration model `AppConfig(BaseModel)` with fields
`ENV: str`, `DEBUG: bool`, `HOST: str`, `PORT: int`, `LOGGING_LEVEL: str`.
The three string fields carry no constraint at all (no non-emptiness check,
no enum on the logging level), and `PORT` carries no range constraint. -/
structure AppConfig where
  ENV : String
  DEBUG : Bool
  HOST : String
  PORT : Int
  LOGGING_LEVEL : String
deriving Repr, DecidableEq

/-- `AppConfig.from_env()`: builds the keyword arguments in source order
(each `os.getenv` default — a file read — evaluated eagerly), then runs
pydantic validation.  `envName` is the module-level `ENV` section name
(`os.environ.get("FLASK_ENV", "dev")`) and `cfg` is the module-level
`ConfigParser` contents read once at import. -/
def AppConfig.from_env (envv : EnvVars) (cfg : IniFile) (envName : String) :
    Except String AppConfig :=
  match rawDebug envv cfg envName with
  | .error e => .error e
  | .ok dRaw =>
  match rawPort envv cfg envName with
  | .error e => .error e
  | .ok pRaw =>
  match pydanticBool dRaw with
  | .error e => .error e
  | .ok dbg =>
  match pydanticInt pRaw with
  | .error e => .error e
  | .ok prt =>
    .ok { ENV := rawStr envv cfg envName "ENV" "env" "dev"
          DEBUG := dbg
          HOST := rawStr envv cfg envName "HOST" "host" "127.0.0.1"
          PORT := prt
          LOGGING_LEVEL := rawStr envv cfg envName "LOGGING_LEVEL" "logging_level" "INFO" }

/-- The module-level `ENV = os.environ.get("FLASK_ENV", "dev")`. -/
def moduleEnvName (envv : EnvVars) : String :=
  (envGet envv "FLASK_ENV").getD "dev"

/-- A `pandas.Timestamp`: a wall-clock instant with sub-second precision down
to nanoseconds and an optional fixed UTC offset (in minutes).  A naive
timestamp has `tzOffsetMinutes = none`. -/
structure PdTimestamp where
  year : Nat
  month : Nat
  day : Nat
  hour : Nat
  minute : Nat
  second : Nat
  microsecond : Nat
  nanosecond : Nat
  tzOffsetMinutes : Option Int
deriving Repr, DecidableEq

/-- Two-digit zero-padded decimal rendering (`%02d` for in-range values). -/
def pad2Chars (n : Nat) : List Char :=
  [Nat.digitChar (n / 10 % 10), Nat.digitChar (n % 10)]

/-- Four-digit zero-padded decimal rendering (`%04d` for in-range values). -/
def pad4Chars (n : Nat) : List Char :=
  [Nat.digitChar (n / 1000 % 10), Nat.digitChar (n / 100 % 10),
   Nat.digitChar (n / 10 % 10), Nat.digitChar (n % 10)]

/-- Six-digit zero-padded decimal rendering (`%06d`), for microseconds. -/
def pad6Chars (n : Nat) : List Char :=
  [Nat.digitChar (n / 100000 % 10), Nat.digitChar (n / 10000 % 10),
   Nat.digitChar (n / 1000 % 10), Nat.digitChar (n / 100 % 10),
   Nat.digitChar (n / 10 % 10), Nat.digitChar (n % 10)]

/-- Nine-digit zero-padded decimal rendering (`%09d`), for nanoseconds. -/
def pad9Chars (n : Nat) : List Char :=
  [Nat.digitChar (n / 100000000 % 10), Nat.digitChar (n / 10000000 % 10),
   Nat.digitChar (n / 1000000 % 10)] ++ pad6Chars (n % 1000000)

/-- The `YYYY-MM-DDTHH:MM:SS` base of `Timestamp.isoformat()`. -/
def isoBaseChars (t : PdTimestamp) : List Char :=
  pad4Chars t.year ++ '-' :: pad2Chars t.month ++ '-' :: pad2Chars t.day ++
  'T' :: pad2Chars t.hour ++ ':' :: pad2Chars t.minute ++ ':' :: pad2Chars t.second

/-- The fractional-second part of `Timestamp.isoformat()`: omitted when the
sub-second fields are zero, six digits when only microseconds are set, nine
digits when the timestamp carries nanoseconds. -/
def isoFracChars (t : PdTimestamp) : List Char :=
  if t.nanosecond ≠ 0 then '.' :: pad9Chars (t.microsecond * 1000 + t.nanosecond)
  else if t.microsecond ≠ 0 then '.' :: pad6Chars t.microsecond
  else []

/-- The ISO-8601 `±HH:MM` rendering of a fixed UTC offset in minutes. -/
def offsetChars (off : Int) : List Char :=
  (if off < 0 then '-' else '+') :: pad2Chars (off.natAbs / 60) ++
  ':' :: pad2Chars (off.natAbs % 60)

/-- The timezone suffix of `Timestamp.isoformat()`: empty for a naive
timestamp, the ISO-8601 offset for an aware one. -/
def isoTzChars (t : PdTimestamp) : List Char :=
  match t.tzOffsetMinutes with
  | none => []
  | some off => offsetChars off

/-- `pandas.Timestamp.isoformat()`. -/
def PdTimestamp.isoformat (t : PdTimestamp) : String :=
  String.mk (isoBaseChars t ++ isoFracChars t ++ isoTzChars t)

/-- The exact numeric payload of a Python float, as a fraction.  The program
performs no arithmetic on floats, so the payload is carried through encoding
unchanged; `repr` round-tripping justifies reading the source literals as
exact decimal fractions. -/
structure PyFloatVal where
  num : Int
  den : Nat
deriving Repr, DecidableEq

/-- A Python object reaching Flask's `jsonify` / the JSON provider.  The first
seven constructors are the natively serializable types; the rest are objects
handed to `CustomJSONProvider.default`. -/
inductive PyObj where
  | pyNone
  | pyBool (b : Bool)
  | pyInt (n : Int)
  | pyFloat (q : PyFloatVal)
  | pyStr (s : String)
  | pyList (xs : List PyObj)
  | pyDict (es : List (String × PyObj))
  | ndarray (xs : List Int)
  | npInt (n : Int)
  | npFloat (q : PyFloatVal)
  | pdTimestamp (t : PdTimestamp)
  | dataframe (cols : List String) (rows : List (List PyObj))
  | uuid (s : String)
  | timedelta (days : Int)
  | other (typeName : String)
deriving Repr

/-- A JSON document.  Numbers keep the int/float distinction that Python's
`json` module preserves (`0` versus `0.0` in the serialized text). -/
inductive Json where
  | jnull
  | jbool (b : Bool)
  | jint (n : Int)
  | jfloat (q : PyFloatVal)
  | jstr (s : String)
  | jarr (xs : List Json)
  | jobj (es : List (String × Json))
deriving Repr

/-- `CustomJSONProvider.default` from `create_app`, including the base-class
behavior it falls back to: the four `isinstance` branches convert numpy
arrays (`tolist`), numpy scalars (`item`), pandas timestamps (`isoformat`)
and dataframes (`to_dict(orient="records")`); everything else goes to
`DefaultJSONProvider.default`, which stringifies `uuid.UUID` (and similarly
converts `date`, `Decimal`, dataclasses and HTML-renderable objects) and
raises `TypeError` for any other object, e.g. `datetime.timedelta`.  It is
only ever called on non-native objects. -/
def CustomJSONProvider.default (obj : PyObj) : Except String PyObj :=
  match obj with
  | .ndarray xs => .ok (.pyList (xs.map fun n => .pyInt n))
  | .npInt n => .ok (.pyInt n)
  | .npFloat q => .ok (.pyFloat q)
  | .pdTimestamp t => .ok (.pyStr t.isoformat)
  | .dataframe cols rows => .ok (.pyList (rows.map fun r => .pyDict (cols.zip r)))
  | .uuid s => .ok (.pyStr s)
  | .timedelta _ => .error "TypeError: Object of type timedelta is not JSON serializable"
  | .other name => .error ("TypeError: Object of type " ++ name ++ " is not JSON serializable")
  | _ => .error "TypeError: default is not called on natively serializable objects"

/-- `json.dumps` with the provider installed by `create_app`: native types are
emitted directly, containers recurse, and any other object is converted by
`CustomJSONProvider.default` and re-serialized.  The fuel argument bounds the
recursion depth (Python's own recursion limit); every value in this
development is serialized far below it. -/
def dumps (fuel : Nat) (obj : PyObj) : Except String Json :=
  match fuel with
  | 0 => .error "RecursionError: maximum recursion depth exceeded"
  | fuel + 1 =>
    match obj with
    | .pyNone => .ok .jnull
    | .pyBool b => .ok (.jbool b)
    | .pyInt n => .ok (.jint n)
    | .pyFloat q => .ok (.jfloat q)
    | .pyStr s => .ok (.jstr s)
    | .pyList xs => Json.jarr <$> xs.mapM (fun x => dumps fuel x)
    | .pyDict es => Json.jobj <$> es.mapM (fun kv => Prod.mk kv.1 <$> dumps fuel kv.2)
    | x =>
      match CustomJSONProvider.default x with
      | .error e => .error e
      | .ok o2 => dumps fuel o2

/-- Serialization as performed by `jsonify`: `dumps` at the application's
recursion limit. -/
def encode (obj : PyObj) : Except String Json :=
  dumps 100 obj

/-- `pd.DataFrame({...})`: column-major construction; the stored value keeps
the column order and transposes the columns into rows. -/
def pdDataFrame (cols : List (String × List PyObj)) : PyObj :=
  .dataframe (cols.map Prod.fst) (List.transpose (cols.map Prod.snd))

/-- The Python floats literally written in `get_data`: `42.42` denotes the
double nearest to 42.42; since the program performs no arithmetic on it and
`repr` round-trips, the payload is modelled by the decimal rational. -/
def floatLit42_42 : PyFloatVal := { num := 4242, den := 100 }

/-- The response value built by the `/data` handler. -/
def get_data_value : PyObj :=
  .pyDict
    [("array", .ndarray [1, 2, 3]),
     ("number", .npFloat floatLit42_42),
     ("timestamp", .pdTimestamp ⟨2023, 12, 18, 10, 0, 0, 0, 0, none⟩),
     ("dataframe", pdDataFrame [("A", [.npInt 1, .npInt 2]), ("B", [.npInt 3, .npInt 4])])]

/-- The `/data` route: serializes `get_data_value` and returns it with
status 200 (an encoding failure would escape as a server error). -/
def get_data : Except String (Nat × Json) :=
  match encode get_data_value with
  | .ok j => .ok (200, j)
  | .error e => .error e

/-- `app.config`: Flask's configuration mapping. -/
abbrev FlaskConfigMap := List (String × PyObj)

/-- `app.config[k] = v`: replace an existing key in place, else append. -/
def dictSet : FlaskConfigMap → String → PyObj → FlaskConfigMap
  | [], k, v => [(k, v)]
  | (k0, v0) :: rest, k, v =>
    if k0 = k then (k, v) :: rest else (k0, v0) :: dictSet rest k v

/-- `app.config.update(kvs)`: set every key of `kvs` in order. -/
def dictUpdate (m : FlaskConfigMap) (kvs : List (String × PyObj)) : FlaskConfigMap :=
  kvs.foldl (fun acc kv => dictSet acc kv.1 kv.2) m

/-- `app.config.get(k)`. -/
def dictGet : FlaskConfigMap → String → Option PyObj
  | [], _ => none
  | (k0, v) :: rest, k => if k0 = k then some v else dictGet rest k

/-- `app_config.model_dump()`: the five validated fields as a Python dict. -/
def modelDump (spec : AppConfig) : List (String × PyObj) :=
  [("ENV", .pyStr spec.ENV), ("DEBUG", .pyBool spec.DEBUG), ("HOST", .pyStr spec.HOST),
   ("PORT", .pyInt spec.PORT), ("LOGGING_LEVEL", .pyStr spec.LOGGING_LEVEL)]

/-- The Flask built-in configuration defaults present in `app.config` before
`create_app` updates it.  Only the entry relevant to serialization is listed:
`PERMANENT_SESSION_LIFETIME` is `datetime.timedelta(days=31)`, a value the
JSON provider cannot serialize.  (The real mapping holds further built-ins;
this representative one already decides every statement made below.) -/
def flaskBaseConfig : FlaskConfigMap :=
  [("PERMANENT_SESSION_LIFETIME", .timedelta 31)]

/-- `create_app`'s configuration phase: resolve via `AppConfig.from_env` and
install the result into `app.config` over Flask's defaults (a
`ValidationError` aborts startup). -/
def create_app (envv : EnvVars) (cfg : IniFile) (envName : String) :
    Except String FlaskConfigMap :=
  match AppConfig.from_env envv cfg envName with
  | .error e => .error e
  | .ok spec => .ok (dictUpdate flaskBaseConfig (modelDump spec))

/-- The `POST /reload-config` handler.  `snapshot` is the module-level
`ConfigParser` contents read once at import; `diskNow` is whatever the INI
file holds on disk at request time — the handler never re-reads the file, so
this argument is unused.  On a successful resolution the handler first
updates `app.config` wholesale, then (after `setup_logging`, which cannot
fail at reload time: `logging.basicConfig` is a no-op once the root logger
has handlers) builds the success response with `jsonify`, whose failure is
caught by the blanket `except` and turned into a 500. -/
def reload_config (envv : EnvVars) (snapshot _diskNow : IniFile) (envName : String)
    (store : FlaskConfigMap) : FlaskConfigMap × Nat :=
  match AppConfig.from_env envv snapshot envName with
  | .error _ => (store, 500)
  | .ok spec =>
    let store2 := dictUpdate store (modelDump spec)
    match encode (.pyDict [("message", .pyStr "Configuration reloaded successfully"),
                           ("config", .pyDict store2)]) with
    | .ok _ => (store2, 200)
    | .error _ => (store2, 500)

/-- Decimal digits of a proper fraction `r / d` (with `r < d`), most
significant first, stopping at the fuel bound or when the remainder is 0. -/
def fracDigitChars (fuel : Nat) (r d : Nat) : List Char :=
  match fuel with
  | 0 => []
  | fuel + 1 =>
    if r = 0 then []
    else Nat.digitChar (r * 10 / d % 10) :: fracDigitChars fuel (r * 10 % d) d

/-- Trailing `0` digits removed, as in the mantissa of CPython's exponent
notation (`repr(1e16)` is `1e+16`, not `1.000...e+16`). -/
def dropTrailingZeros (cs : List Char) : List Char :=
  (cs.reverse.dropWhile (fun c => c == '0')).reverse

/-- The exponent digits written by CPython's float repr: at least two,
zero-padded ("05" in `1e-05`, "16" in `1e+16`, "308" in `1e+308`). -/
def expDigits (x : Nat) : String :=
  if x < 10 then String.mk ['0', Nat.digitChar (x % 10)] else toString x

/-- `repr` of a Python float, as emitted by `json.dumps` for float values.
CPython prints the shortest round-tripping decimal; with scientific exponent
x (value = d1.d2... * 10^x) it uses fixed notation when -4 <= x < 16 —
always with a decimal point, integral values getting a trailing ".0" — and
exponent notation otherwise (`1e+16`, `1e-05`): first significant digit, the
remaining digits after a decimal point when there are any, then `e`, the
exponent's sign and its zero-padded digits.  The digit extraction expands
the exact rational payload; the fuel only totalizes the expansion, since
every payload standing for a shortest float repr is a terminating decimal.
In both notations the result is never a bare integer literal: it contains
a '.' or an 'e'. -/
def floatRepr (q : PyFloatVal) : String :=
  let sign := if q.num < 0 then "-" else ""
  let n := q.num.natAbs
  let d := q.den
  if n = 0 then sign ++ "0.0"
  else if n / d > 0 then
    let ipd := Nat.toDigits 10 (n / d)
    if ipd.length ≥ 17 then
      let rest := dropTrailingZeros (ipd.tail ++ fracDigitChars 340 (n % d) d)
      sign ++ String.mk (ipd.take 1) ++
        (if rest = [] then "" else "." ++ String.mk rest) ++
        "e+" ++ expDigits (ipd.length - 1)
    else
      let frac := fracDigitChars 340 (n % d) d
      sign ++ String.mk ipd ++ "." ++ String.mk (if frac = [] then ['0'] else frac)
  else
    let fr := fracDigitChars 340 (n % d) d
    let z := (fr.takeWhile (fun c => c == '0')).length
    if z ≥ 4 then
      let rest := dropTrailingZeros (fr.drop (z + 1))
      sign ++ String.mk ((fr.drop z).take 1) ++
        (if rest = [] then "" else "." ++ String.mk rest) ++
        "e-" ++ expDigits (z + 1)
    else
      sign ++ "0." ++ String.mk (if fr = [] then ['0'] else fr)

/-- `repr`/`json.dumps` rendering of a Python int: no decimal point ever. -/
def intRepr (n : Int) : String :=
  (if n < 0 then "-" else "") ++ toString n.natAbs

/-- Character-level check for the shape `YYYY-MM-DDTHH:MM:SS`: nineteen
characters, digits in the date/time positions, the literal separators at
positions 4, 7, 10, 13 and 16. -/
def basicIsoCheck : List Char → Bool
  | y1 :: y2 :: y3 :: y4 :: c1 :: m1 :: m2 :: c2 :: d1 :: d2 :: c3 ::
      h1 :: h2 :: c4 :: n1 :: n2 :: c5 :: s1 :: s2 :: [] =>
    (c1 == '-') && (c2 == '-') && (c3 == 'T') && (c4 == ':') && (c5 == ':') &&
    y1.isDigit && y2.isDigit && y3.isDigit && y4.isDigit && m1.isDigit && m2.isDigit &&
    d1.isDigit && d2.isDigit && h1.isDigit && h2.isDigit && n1.isDigit && n2.isDigit &&
    s1.isDigit && s2.isDigit
  | _ => false

/-- Checks that a string is exactly of the shape `YYYY-MM-DDTHH:MM:SS`. -/
def isBasicIsoShape (s : String) : Bool :=
  basicIsoCheck s.toList

/-- Character-level check for an ISO-8601 offset `±HH:MM`. -/
def offsetCheck : List Char → Bool
  | sgn :: a :: b :: c0 :: c :: d :: [] =>
    (sgn == '+' || sgn == '-') && (c0 == ':') &&
    a.isDigit && b.isDigit && c.isDigit && d.isDigit
  | _ => false

/-- Checks that a character list is an ISO-8601 offset `±HH:MM`. -/
def isOffsetShape (cs : List Char) : Bool :=
  offsetCheck cs

/-- The `app.config` contents after a startup with no environment overrides
and no readable INI file: Flask's built-in defaults overlaid with the five
resolved fields. -/
def devDefaultStore : FlaskConfigMap :=
  [("PERMANENT_SESSION_LIFETIME", .timedelta 31),
   ("ENV", .pyStr "dev"), ("DEBUG", .pyBool false), ("HOST", .pyStr "127.0.0.1"),
   ("PORT", .pyInt 5000), ("LOGGING_LEVEL", .pyStr "INFO")]

lemma strToList_mk (l : List Char) : (String.mk l).toList = l := rfl

lemma strToList_append (a b : String) : (a ++ b).toList = a.toList ++ b.toList := rfl

lemma mem_str_append_left {c : Char} {a : String} (b : String) (h : c ∈ a.toList) :
    c ∈ (a ++ b).toList := by
  rw [strToList_append]
  exact List.mem_append_left _ h

lemma mem_str_append_right {c : Char} {b : String} (a : String) (h : c ∈ b.toList) :
    c ∈ (a ++ b).toList := by
  rw [strToList_append]
  exact List.mem_append_right _ h

lemma digitChar_mod_isDigit (k : Nat) : (Nat.digitChar (k % 10)).isDigit = true := by
  have h : k % 10 < 10 := Nat.mod_lt _ (by norm_num)
  set m := k % 10 with hm
  interval_cases m <;> decide

/-- Success of `AppConfig.from_env`, decomposed into the success of the two
fallible raw-argument evaluations and the two pydantic coercions. -/
lemma from_env_ok_iff (envv : EnvVars) (cfg : IniFile) (envName : String) (spec : AppConfig) :
    AppConfig.from_env envv cfg envName = .ok spec ↔
    ∃ dRaw pRaw,
      rawDebug envv cfg envName = .ok dRaw ∧
      rawPort envv cfg envName = .ok pRaw ∧
      pydanticBool dRaw = .ok spec.DEBUG ∧
      pydanticInt pRaw = .ok spec.PORT ∧
      spec.ENV = rawStr envv cfg envName "ENV" "env" "dev" ∧
      spec.HOST = rawStr envv cfg envName "HOST" "host" "127.0.0.1" ∧
      spec.LOGGING_LEVEL = rawStr envv cfg envName "LOGGING_LEVEL" "logging_level" "INFO" := by
  constructor
  · intro h
    unfold AppConfig.from_env at h
    split at h
    · exact absurd h (fun c => Except.noConfusion c)
    rename_i dRaw hd
    split at h
    · exact absurd h (fun c => Except.noConfusion c)
    rename_i pRaw hp
    split at h
    · exact absurd h (fun c => Except.noConfusion c)
    rename_i dbg hb
    split at h
    · exact absurd h (fun c => Except.noConfusion c)
    rename_i prt hi
    injection h with h2
    subst h2
    exact ⟨dRaw, pRaw, hd, hp, hb, hi, rfl, rfl, rfl⟩
  · rintro ⟨dRaw, pRaw, hd, hp, hb, hi, he, hh, hl⟩
    obtain ⟨E, D, H, P, L⟩ := spec
    simp only at he hh hl hb hi
    subst he hh hl
    unfold AppConfig.from_env
    simp only [hd, hp, hb, hi]

lemma rawDebug_env {envv : EnvVars} {cfg : IniFile} {envName s : String} {dRaw : PyVal}
    (hs : envGet envv "DEBUG" = some s) (h : rawDebug envv cfg envName = .ok dRaw) :
    dRaw = .str s := by
  unfold rawDebug at h
  split at h
  · exact absurd h (fun c => Except.noConfusion c)
  simp only [hs] at h
  injection h with h2
  exact h2.symm

lemma rawDebug_file {envv : EnvVars} {cfg : IniFile} {envName v : String} {dRaw : PyVal}
    (hs : envGet envv "DEBUG" = none) (hv : iniGet cfg envName "debug" = some v)
    (h : rawDebug envv cfg envName = .ok dRaw) :
    ∃ b, cpBool v = some b ∧ dRaw = .bool b := by
  unfold rawDebug debugFileVal at h
  cases hb : cpBool v with
  | none =>
    simp only [hv, hb] at h
    exact absurd h (fun c => Except.noConfusion c)
  | some b =>
    simp only [hv, hb, hs] at h
    exact ⟨b, rfl, (Except.ok.inj h).symm⟩

lemma rawDebug_default {envv : EnvVars} {cfg : IniFile} {envName : String} {dRaw : PyVal}
    (hs : envGet envv "DEBUG" = none) (hv : iniGet cfg envName "debug" = none)
    (h : rawDebug envv cfg envName = .ok dRaw) :
    dRaw = .str "false" := by
  unfold rawDebug debugFileVal at h
  simp only [hv, hs] at h
  exact (Except.ok.inj h).symm

lemma rawDebug_file_invalid {envv : EnvVars} {cfg : IniFile} {envName v : String}
    (hv : iniGet cfg envName "debug" = some v) (hc : cpBool v = none) :
    ∀ dRaw, rawDebug envv cfg envName ≠ .ok dRaw := by
  intro dRaw h
  unfold rawDebug debugFileVal at h
  simp only [hv, hc] at h
  exact Except.noConfusion h

lemma rawPort_env {envv : EnvVars} {cfg : IniFile} {envName s : String} {pRaw : PyVal}
    (hs : envGet envv "PORT" = some s) (h : rawPort envv cfg envName = .ok pRaw) :
    pRaw = .str s := by
  unfold rawPort at h
  split at h
  · exact absurd h (fun c => Except.noConfusion c)
  simp only [hs] at h
  injection h with h2
  exact h2.symm

lemma rawPort_file {envv : EnvVars} {cfg : IniFile} {envName v : String} {pRaw : PyVal}
    (hs : envGet envv "PORT" = none) (hv : iniGet cfg envName "port" = some v)
    (h : rawPort envv cfg envName = .ok pRaw) :
    ∃ n, pyIntParse v = some n ∧ pRaw = .int n := by
  unfold rawPort portFileVal at h
  cases hn : pyIntParse v with
  | none =>
    simp only [hv, hn] at h
    exact absurd h (fun c => Except.noConfusion c)
  | some n =>
    simp only [hv, hn, hs] at h
    exact ⟨n, rfl, (Except.ok.inj h).symm⟩

lemma rawPort_default {envv : EnvVars} {cfg : IniFile} {envName : String} {pRaw : PyVal}
    (hs : envGet envv "PORT" = none) (hv : iniGet cfg envName "port" = none)
    (h : rawPort envv cfg envName = .ok pRaw) :
    pRaw = .int 5000 := by
  unfold rawPort portFileVal at h
  simp only [hv, hs] at h
  exact (Except.ok.inj h).symm

lemma pydanticBool_str {s : String} {b : Bool} (h : pydanticBool (.str s) = .ok b) :
    pydanticStrAsBool s = some b := by
  unfold pydanticBool at h
  cases hb : pydanticStrAsBool s with
  | none =>
    simp only [hb] at h
    exact absurd h (fun c => Except.noConfusion c)
  | some b0 =>
    simp only [hb] at h
    rw [Except.ok.inj h]

lemma pydanticInt_str {s : String} {n : Int} (h : pydanticInt (.str s) = .ok n) :
    pydanticStrAsInt s = some n := by
  unfold pydanticInt at h
  cases hn : pydanticStrAsInt s with
  | none =>
    simp only [hn] at h
    exact absurd h (fun c => Except.noConfusion c)
  | some n0 =>
    simp only [hn] at h
    rw [Except.ok.inj h]

/-- Claim C5 (amended): the three string fields carry no validation at all.
For any strings supplied as `ENV`, `HOST` and `LOGGING_LEVEL` environment
variables — empty or outside any severity enum included — resolution
succeeds and the resulting spec carries them verbatim. -/
theorem c5_string_fields_amended (e h l : String) :
    AppConfig.from_env [("ENV", e), ("HOST", h), ("LOGGING_LEVEL", l)] [] "dev"
      = .ok { ENV := e, DEBUG := false, HOST := h, PORT := 5000, LOGGING_LEVEL := l } := rfl

/-- Claim C5, counterexample: an empty `ENV` and the unrecognized
`LOGGING_LEVEL` value "BANANA" are accepted and a ConfigSpec holding them is
constructed, contrary to the claim that no such spec ever exists. -/
theorem c5_string_fields_counterexample :
    AppConfig.from_env [("ENV", ""), ("LOGGING_LEVEL", "BANANA")] [] "dev"
      = .ok { ENV := "", DEBUG := false, HOST := "127.0.0.1", PORT := 5000,
              LOGGING_LEVEL := "BANANA" } := by
  decide

/-- Claim C3 (amended): a `PORT` string must parse as an optionally signed
base-10 integer — a non-numeric value such as "abc" aborts the whole
resolution — but no range check whatsoever is applied to the parsed value. -/
theorem c3_port_parsing_amended :
    (∀ (envv : EnvVars) (cfg : IniFile) (envName s : String) (spec : AppConfig),
       envGet envv "PORT" = some s → AppConfig.from_env envv cfg envName = .ok spec →
       pydanticStrAsInt s = some spec.PORT) ∧
    (∀ (envv : EnvVars) (cfg : IniFile) (envName s : String),
       envGet envv "PORT" = some s → pydanticStrAsInt s = none →
       ∀ spec, AppConfig.from_env envv cfg envName ≠ .ok spec) ∧
    (∀ spec, AppConfig.from_env [("PORT", "abc")] [] "dev" ≠ .ok spec) := by
  refine ⟨?_, ?_, ?_⟩
  · intro envv cfg envName s spec hs h
    obtain ⟨dRaw, pRaw, _, hp, _, hi, _, _, _⟩ := (from_env_ok_iff envv cfg envName spec).mp h
    have hps := rawPort_env hs hp
    subst hps
    exact pydanticInt_str hi
  · intro envv cfg envName s hs hnone spec h
    obtain ⟨dRaw, pRaw, _, hp, _, hi, _, _, _⟩ := (from_env_ok_iff envv cfg envName spec).mp h
    have hps := rawPort_env hs hp
    subst hps
    rw [pydanticInt_str hi] at hnone
    exact Option.noConfusion hnone
  · intro spec h
    rw [show AppConfig.from_env [("PORT", "abc")] [] "dev"
        = .error "ValidationError: PORT: Input should be a valid integer, unable to parse string as an integer: abc" from by decide] at h
    exact Except.noConfusion h

/-- Claim C3, witness for the amended theorem at `PORT="8080"`. -/
theorem c3_port_parsing_amended_witness :
    envGet [("PORT", "8080")] "PORT" = some "8080" ∧
    pydanticStrAsInt "8080" = some (8080 : Int) := by
  refine ⟨by decide, ?_⟩
  exact c3_port_parsing_amended.1 [("PORT", "8080")] [] "dev" "8080"
    { ENV := "dev", DEBUG := false, HOST := "127.0.0.1", PORT := 8080, LOGGING_LEVEL := "INFO" }
    (by decide) (by decide)

/-- Claim C3, counterexample: the out-of-range value "70000" does not abort
resolution; a ConfigSpec with port 70000 is produced. -/
theorem c3_port_range_counterexample :
    AppConfig.from_env [("PORT", "70000")] [] "dev"
      = .ok { ENV := "dev", DEBUG := false, HOST := "127.0.0.1", PORT := 70000,
              LOGGING_LEVEL := "INFO" } := by
  decide

/-- Claim C4 (amended): an environment-supplied `DEBUG` goes through
pydantic's boolean coercion, which accepts the claimed eight forms
case-insensitively *plus* "t", "f", "y" and "n"; a file-supplied `debug`
goes through configparser's `BOOLEAN_STATES`, which accepts exactly the
claimed eight forms case-insensitively.  Any other string — from either
source — aborts the whole resolution (a malformed file value aborts even
when the environment variable is set, because the `os.getenv` default is
evaluated eagerly). -/
theorem c4_debug_coercion_amended :
    (∀ (envv : EnvVars) (cfg : IniFile) (envName s : String) (spec : AppConfig),
       envGet envv "DEBUG" = some s → AppConfig.from_env envv cfg envName = .ok spec →
       pydanticStrAsBool s = some spec.DEBUG) ∧
    (∀ (envv : EnvVars) (cfg : IniFile) (envName s : String),
       envGet envv "DEBUG" = some s → pydanticStrAsBool s = none →
       ∀ spec, AppConfig.from_env envv cfg envName ≠ .ok spec) ∧
    (∀ (envv : EnvVars) (cfg : IniFile) (envName v : String) (spec : AppConfig),
       envGet envv "DEBUG" = none → iniGet cfg envName "debug" = some v →
       AppConfig.from_env envv cfg envName = .ok spec → cpBool v = some spec.DEBUG) ∧
    (∀ (envv : EnvVars) (cfg : IniFile) (envName v : String),
       iniGet cfg envName "debug" = some v → cpBool v = none →
       ∀ spec, AppConfig.from_env envv cfg envName ≠ .ok spec) ∧
    (∀ spec, AppConfig.from_env [("DEBUG", "maybe")] [] "dev" ≠ .ok spec) := by
  refine ⟨?_, ?_, ?_, ?_, ?_⟩
  · intro envv cfg envName s spec hs h
    obtain ⟨dRaw, pRaw, hd, _, hb, _, _, _, _⟩ := (from_env_ok_iff envv cfg envName spec).mp h
    have hds := rawDebug_env hs hd
    subst hds
    exact pydanticBool_str hb
  · intro envv cfg envName s hs hnone spec h
    obtain ⟨dRaw, pRaw, hd, _, hb, _, _, _, _⟩ := (from_env_ok_iff envv cfg envName spec).mp h
    have hds := rawDebug_env hs hd
    subst hds
    rw [pydanticBool_str hb] at hnone
    exact Option.noConfusion hnone
  · intro envv cfg envName v spec hs hv h
    obtain ⟨dRaw, pRaw, hd, _, hb, _, _, _, _⟩ := (from_env_ok_iff envv cfg envName spec).mp h
    obtain ⟨b, hcb, hdr⟩ := rawDebug_file hs hv hd
    subst hdr
    rw [hcb, Except.ok.inj hb]
  · intro envv cfg envName v hv hc spec h
    obtain ⟨dRaw, pRaw, hd, _, _, _, _, _, _⟩ := (from_env_ok_iff envv cfg envName spec).mp h
    exact rawDebug_file_invalid hv hc dRaw hd
  · intro spec h
    rw [show AppConfig.from_env [("DEBUG", "maybe")] [] "dev"
        = .error "ValidationError: DEBUG: Input should be a valid boolean, unable to interpret input: maybe" from by decide] at h
    exact Except.noConfusion h

/-- Claim C4, witness for the amended theorem at `DEBUG="TRUE"` (env path)
and `debug=ON` (file path). -/
theorem c4_debug_coercion_amended_witness :
    pydanticStrAsBool "TRUE" = some true ∧ cpBool "ON" = some true := by
  constructor
  · exact c4_debug_coercion_amended.1 [("DEBUG", "TRUE")] [] "dev" "TRUE"
      { ENV := "dev", DEBUG := true, HOST := "127.0.0.1", PORT := 5000, LOGGING_LEVEL := "INFO" }
      (by decide) (by decide)
  · exact c4_debug_coercion_amended.2.2.1 [] [("dev", [("debug", "ON")])] "dev" "ON"
      { ENV := "dev", DEBUG := true, HOST := "127.0.0.1", PORT := 5000, LOGGING_LEVEL := "INFO" }
      (by decide) (by decide) (by decide)

/-- Claim C4, counterexample: the environment value "t" is outside the eight
forms the claim allows, yet resolution succeeds with DEBUG=true instead of
failing validation. -/
theorem c4_debug_coercion_counterexample :
    AppConfig.from_env [("DEBUG", "t")] [] "dev"
      = .ok { ENV := "dev", DEBUG := true, HOST := "127.0.0.1", PORT := 5000,
              LOGGING_LEVEL := "INFO" } := by
  decide

/-- Claim C6 (amended): a value outside the five converted variants falls
through to Flask's base provider.  A generic unknown object raises a
`TypeError` naming its type, and the error propagates out of `encode` even
from a nested position — but specific library types such as `uuid.UUID` are
silently converted to strings by the base provider rather than rejected. -/
theorem c6_unsupported_amended :
    (∀ name, encode (.other name)
       = .error ("TypeError: Object of type " ++ name ++ " is not JSON serializable")) ∧
    (∀ d : Int, encode (.timedelta d)
       = .error "TypeError: Object of type timedelta is not JSON serializable") ∧
    encode (.pyDict [("wrapped", .pyList [.pyInt 1, .other "object"])])
      = .error "TypeError: Object of type object is not JSON serializable" :=
  ⟨fun _ => rfl, fun _ => rfl, rfl⟩

/-- Claim C6, counterexample: a `uuid.UUID` is outside the five defined
variants, yet the encoder silently stringifies it instead of failing with an
error. -/
theorem c6_unsupported_counterexample :
    encode (.uuid "123e4567-e89b-12d3-a456-426614174000")
      = .ok (.jstr "123e4567-e89b-12d3-a456-426614174000") := rfl

/-- Claim C7: `GET /data` returns 200 and a body holding exactly the keys
`array`, `number`, `timestamp` and `dataframe`, encoded as `[1,2,3]`, the
float 42.42, the string "2023-12-18T10:00:00" and the row-major array of
objects `[(A:1,B:3),(A:2,B:4)]` with one key per column in column order. -/
theorem c7_get_data_contents :
    get_data = .ok (200, .jobj
      [("array", .jarr [.jint 1, .jint 2, .jint 3]),
       ("number", .jfloat floatLit42_42),
       ("timestamp", .jstr "2023-12-18T10:00:00"),
       ("dataframe", .jarr
         [.jobj [("A", .jint 1), ("B", .jint 3)],
          .jobj [("A", .jint 2), ("B", .jint 4)]])]) := rfl

/-- Claim C9: int-kinded numpy scalars encode to JSON integers, float-kinded
ones to JSON floats carrying the same payload; the float rendering is never
collapsed to an integer literal — in fixed notation it contains a decimal
point, in CPython's exponent notation (used below the 1e-4 and from the 1e16
magnitude thresholds) it contains an 'e' — and a float zero renders as
"0.0" while an int zero renders as "0". -/
theorem c9_scalar_kinds :
    (∀ n : Int, encode (.npInt n) = .ok (.jint n)) ∧
    (∀ q : PyFloatVal, encode (.npFloat q) = .ok (.jfloat q)) ∧
    (∀ q : PyFloatVal, '.' ∈ (floatRepr q).toList ∨ 'e' ∈ (floatRepr q).toList) ∧
    floatRepr { num := 0, den := 1 } = "0.0" ∧
    floatRepr floatLit42_42 = "42.42" ∧
    floatRepr { num := 10000000000000000, den := 1 } = "1e+16" ∧
    floatRepr { num := 1, den := 100000 } = "1e-05" ∧
    intRepr 0 = "0" := by
  refine ⟨fun _ => rfl, fun _ => rfl, ?_, by decide, by decide, by decide, by decide, by decide⟩
  intro q
  simp only [floatRepr]
  split
  · exact Or.inl (mem_str_append_right _ (by decide))
  split
  · split
    · exact Or.inr (mem_str_append_left _ (mem_str_append_right _ (by decide)))
    · exact Or.inl (mem_str_append_left _ (mem_str_append_right _ (by decide)))
  · split
    · exact Or.inr (mem_str_append_left _ (mem_str_append_right _ (by decide)))
    · exact Or.inl (mem_str_append_left _ (mem_str_append_right _ (by decide)))

/-- Claim C10: the INI file is read once at import (the `snapshot` argument);
the reload endpoint never re-reads the disk, so its result is identical for
any two on-disk file contents at request time — resolution is a function of
the environment variables and the import-time snapshot only. -/
theorem c10_import_time_snapshot (envv : EnvVars) (snapshot d1 d2 : IniFile)
    (envName : String) (store : FlaskConfigMap) :
    reload_config envv snapshot d1 envName store
      = reload_config envv snapshot d2 envName store := rfl

/-- Claim C1: evaluation of the reload endpoint.  With `PORT=8080` set,
resolution succeeds, yet the endpoint returns status 500 — the success
response embeds the whole `app.config`, whose `PERMANENT_SESSION_LIFETIME`
timedelta cannot be JSON-serialized — *after* having already replaced the
active configuration (PORT is now 8080, previously 5000).  A resolution
failure (`DEBUG=maybe`) does return 500 with the store unchanged. -/
theorem c1_reload_not_transactional :
    AppConfig.from_env [("PORT", "8080")] [] "dev"
      = .ok { ENV := "dev", DEBUG := false, HOST := "127.0.0.1", PORT := 8080,
              LOGGING_LEVEL := "INFO" } ∧
    create_app [] [] "dev" = .ok devDefaultStore ∧
    reload_config [("PORT", "8080")] [] [] "dev" devDefaultStore
      = ([("PERMANENT_SESSION_LIFETIME", .timedelta 31),
          ("ENV", .pyStr "dev"), ("DEBUG", .pyBool false), ("HOST", .pyStr "127.0.0.1"),
          ("PORT", .pyInt 8080), ("LOGGING_LEVEL", .pyStr "INFO")], 500) ∧
    dictGet devDefaultStore "PORT" = some (.pyInt 5000) ∧
    reload_config [("DEBUG", "maybe")] [] [] "dev" devDefaultStore
      = (devDefaultStore, 500) :=
  ⟨by decide, rfl, rfl, rfl, rfl⟩

/-- Claim C2: for every field, a successful resolution takes its value from
the highest-priority present source — environment variable first, then the
file value in the selected section, then the built-in default (`ENV="dev"`,
`DEBUG=false`, `HOST="127.0.0.1"`, `PORT=5000`, `LOGGING_LEVEL="INFO"`);
for `DEBUG` and `PORT` the chosen raw string is the one the coercion is
applied to.  The final three conjuncts are the claim's concrete port
examples. -/
theorem c2_field_precedence (envv : EnvVars) (cfg : IniFile) (envName : String)
    (spec : AppConfig) (h : AppConfig.from_env envv cfg envName = .ok spec) :
    ((∀ s, envGet envv "ENV" = some s → spec.ENV = s) ∧
     (envGet envv "ENV" = none → ∀ v, iniGet cfg envName "env" = some v → spec.ENV = v) ∧
     (envGet envv "ENV" = none → iniGet cfg envName "env" = none → spec.ENV = "dev")) ∧
    ((∀ s, envGet envv "DEBUG" = some s → pydanticStrAsBool s = some spec.DEBUG) ∧
     (envGet envv "DEBUG" = none → ∀ v, iniGet cfg envName "debug" = some v →
        cpBool v = some spec.DEBUG) ∧
     (envGet envv "DEBUG" = none → iniGet cfg envName "debug" = none → spec.DEBUG = false)) ∧
    ((∀ s, envGet envv "HOST" = some s → spec.HOST = s) ∧
     (envGet envv "HOST" = none → ∀ v, iniGet cfg envName "host" = some v → spec.HOST = v) ∧
     (envGet envv "HOST" = none → iniGet cfg envName "host" = none →
        spec.HOST = "127.0.0.1")) ∧
    ((∀ s, envGet envv "PORT" = some s → pydanticStrAsInt s = some spec.PORT) ∧
     (envGet envv "PORT" = none → ∀ v, iniGet cfg envName "port" = some v →
        pyIntParse v = some spec.PORT) ∧
     (envGet envv "PORT" = none → iniGet cfg envName "port" = none → spec.PORT = 5000)) ∧
    ((∀ s, envGet envv "LOGGING_LEVEL" = some s → spec.LOGGING_LEVEL = s) ∧
     (envGet envv "LOGGING_LEVEL" = none → ∀ v,
        iniGet cfg envName "logging_level" = some v → spec.LOGGING_LEVEL = v) ∧
     (envGet envv "LOGGING_LEVEL" = none → iniGet cfg envName "logging_level" = none →
        spec.LOGGING_LEVEL = "INFO")) ∧
    AppConfig.from_env [("PORT", "8080")] [("dev", [("port", "5000")])] "dev"
      = .ok { ENV := "dev", DEBUG := false, HOST := "127.0.0.1", PORT := 8080,
              LOGGING_LEVEL := "INFO" } ∧
    AppConfig.from_env [] [("dev", [("port", "5000")])] "dev"
      = .ok { ENV := "dev", DEBUG := false, HOST := "127.0.0.1", PORT := 5000,
              LOGGING_LEVEL := "INFO" } ∧
    AppConfig.from_env [] [] "dev"
      = .ok { ENV := "dev", DEBUG := false, HOST := "127.0.0.1", PORT := 5000,
              LOGGING_LEVEL := "INFO" } := by
  obtain ⟨dRaw, pRaw, hd, hp, hb, hi, he, hh, hl⟩ :=
    (from_env_ok_iff envv cfg envName spec).mp h
  refine ⟨⟨?_, ?_, ?_⟩, ⟨?_, ?_, ?_⟩, ⟨?_, ?_, ?_⟩, ⟨?_, ?_, ?_⟩, ⟨?_, ?_, ?_⟩,
    by decide, by decide, by decide⟩
  · intro s hs; rw [he]; simp only [rawStr, hs]
  · intro hnone v hv; rw [he]; simp only [rawStr, hnone, iniGetD, hv, Option.getD_some]
  · intro hnone hvn; rw [he]; simp only [rawStr, hnone, iniGetD, hvn, Option.getD_none]
  · intro s hs
    have hds := rawDebug_env hs hd
    subst hds
    exact pydanticBool_str hb
  · intro hnone v hv
    obtain ⟨b, hcb, hdr⟩ := rawDebug_file hnone hv hd
    subst hdr
    rw [hcb, Except.ok.inj hb]
  · intro hnone hvn
    have hds := rawDebug_default hnone hvn hd
    subst hds
    exact (Except.ok.inj hb).symm
  · intro s hs; rw [hh]; simp only [rawStr, hs]
  · intro hnone v hv; rw [hh]; simp only [rawStr, hnone, iniGetD, hv, Option.getD_some]
  · intro hnone hvn; rw [hh]; simp only [rawStr, hnone, iniGetD, hvn, Option.getD_none]
  · intro s hs
    have hps := rawPort_env hs hp
    subst hps
    exact pydanticInt_str hi
  · intro hnone v hv
    obtain ⟨n, hpn, hpr⟩ := rawPort_file hnone hv hp
    subst hpr
    rw [hpn, Except.ok.inj hi]
  · intro hnone hvn
    have hps := rawPort_default hnone hvn hp
    subst hps
    exact (Except.ok.inj hi).symm
  · intro s hs; rw [hl]; simp only [rawStr, hs]
  · intro hnone v hv; rw [hl]; simp only [rawStr, hnone, iniGetD, hv, Option.getD_some]
  · intro hnone hvn; rw [hl]; simp only [rawStr, hnone, iniGetD, hvn, Option.getD_none]

/-- Claim C2, witness: the precedence theorem applied at the claim's first
port example (`PORT` env var "8080" over file value 5000). -/
theorem c2_field_precedence_witness :
    pydanticStrAsInt "8080" = some (8080 : Int) := by
  have h := c2_field_precedence [("PORT", "8080")] [("dev", [("port", "5000")])] "dev"
    { ENV := "dev", DEBUG := false, HOST := "127.0.0.1", PORT := 8080, LOGGING_LEVEL := "INFO" }
    (by decide)
  exact h.2.2.2.1.1 "8080" (by decide)

/-- Claim C8 (amended): `encode` of a timestamp is the `isoformat` string.
A *whole-second* naive instant yields exactly the shape
`YYYY-MM-DDTHH:MM:SS` — but a naive instant with a non-zero sub-second part
carries a fractional suffix, so the claim's "every naive timestamp" is too
strong.  A timezone-aware instant carries the ISO-8601 `±HH:MM` offset. -/
theorem c8_timestamp_amended (t : PdTimestamp) :
    encode (.pdTimestamp t) = .ok (.jstr t.isoformat) ∧
    (t.microsecond = 0 → t.nanosecond = 0 → t.tzOffsetMinutes = none →
      isBasicIsoShape t.isoformat = true) ∧
    (∀ off, t.tzOffsetMinutes = some off →
      t.isoformat = String.mk (isoBaseChars t ++ isoFracChars t ++ offsetChars off) ∧
      isOffsetShape (offsetChars off) = true) := by
  refine ⟨rfl, ?_, ?_⟩
  · intro h1 h2 h3
    simp only [PdTimestamp.isoformat, isoFracChars, isoTzChars, h1, h2, h3, ne_eq,
      not_true_eq_false, if_false, List.append_nil]
    simp [isBasicIsoShape, basicIsoCheck, isoBaseChars, pad4Chars, pad2Chars,
      strToList_mk, digitChar_mod_isDigit]
  · intro off hoff
    constructor
    · simp only [PdTimestamp.isoformat, isoTzChars, hoff]
    · simp only [isOffsetShape, offsetChars]
      by_cases hneg : off < 0 <;>
        simp [hneg, offsetCheck, pad2Chars, digitChar_mod_isDigit]

/-- Claim C8, witness: the amended theorem at the naive whole-second instant
used by `/data` and at an aware instant with offset +05:30. -/
theorem c8_timestamp_amended_witness :
    isBasicIsoShape (PdTimestamp.mk 2023 12 18 10 0 0 0 0 none).isoformat = true ∧
    isOffsetShape (offsetChars 330) = true := by
  constructor
  · exact (c8_timestamp_amended ⟨2023, 12, 18, 10, 0, 0, 0, 0, none⟩).2.1 rfl rfl rfl
  · exact ((c8_timestamp_amended ⟨2023, 12, 18, 10, 30, 0, 0, 0, some 330⟩).2.2 330 rfl).2

/-- Claim C8, counterexample: a naive timestamp with half a second of
microseconds encodes with a fractional suffix, not the exact shape
`YYYY-MM-DDTHH:MM:SS` the claim asserts for every naive instant. -/
theorem c8_timestamp_counterexample :
    encode (.pdTimestamp ⟨2023, 12, 18, 10, 0, 0, 500000, 0, none⟩)
      = .ok (.jstr "2023-12-18T10:00:00.500000") ∧
    isBasicIsoShape "2023-12-18T10:00:00.500000" = false :=
  ⟨rfl, by decide⟩

end FlaskApp
